import Mathlib

/-!
Verification development for the aimediadash repository.

The repository is a pandas/streamlit analytics dashboard.  Its core pipeline
(`clean_data`, the five chart aggregations, and `generate_insights` in
`streamlit_app.py`, together with the inline cleaning and `top_locations`
aggregation in `app.py`) is embedded below as executable Lean definitions:

* a DataFrame is a list of named columns of cells (`Table`),
* the normalized Dataset is a list of `Row` records,
* each summary table is a list of tuples, and a `generate_insights` call is
  modelled as an `Except`, with `Except.error` standing for a raised Python
  exception (`iloc[0]` / `idxmax` on an empty frame).

String operations are modelled on `List Char` (trim, ASCII lower-casing and
literal single-character replacement, matching `str.strip().str.lower()
.str.replace(' ', '_').str.replace('.', '')` with pandas' literal,
non-regex replacement).  Rational numbers stand for Python floats; numeric
rendering details of f-strings (round-half-even, thousands separators) are
abstracted by simple decimal printers, which no theorem below inspects.
-/

namespace MediaDash

/-- Whitespace test used by `str.strip()`; ASCII whitespace as in Lean core. -/
def isWhite (c : Char) : Bool := c.isWhitespace

/-- Strip whitespace from both ends of a character list (models `str.strip()`). -/
def trimChars (l : List Char) : List Char :=
  ((l.dropWhile isWhite).reverse.dropWhile isWhite).reverse

/-- ASCII lower-casing of one character (models `str.lower()` on the
column-name alphabet actually used by the app). -/
def lowerChar (c : Char) : Char :=
  if 'A' ≤ c ∧ c ≤ 'Z' then Char.ofNat (c.toNat + 32) else c

/-- Column renaming of `streamlit_app.py` line 15:
`df.columns.str.strip().str.lower().str.replace(' ', '_').str.replace('.', '')`.
Note that the final step replaces a period by the EMPTY string, i.e. deletes
periods; it does not turn them into underscores. -/
def normalizeName (s : String) : String :=
  String.mk ((((trimChars s.data).map lowerChar).map
    (fun c => if c = ' ' then '_' else c)).filter (fun c => ¬ (c = '.')))

/-- Modelled from the spec: the spec's § 4.1 words "trim whitespace,
lower-case, replace spaces and periods with underscores" — i.e. periods are
claimed to become underscores.  This definition exists only to be compared
with `normalizeName`, which is taken from the source. -/
def normalizeName_spec (s : String) : String :=
  String.mk (((trimChars s.data).map lowerChar).map
    (fun c => if c = ' ' ∨ c = '.' then '_' else c))

/-- Column renaming of `app.py` line 25:
`df.columns.str.strip().str.lower().str.replace(' ', '_')` — no period
handling at all. -/
def normalizeName_app (s : String) : String :=
  String.mk (((trimChars s.data).map lowerChar).map
    (fun c => if c = ' ' then '_' else c))

/-- A cell of the raw / cleaned DataFrame: a string, a number, a parsed
calendar date (encoded as yyyymmdd), or a missing value (NaN / NaT). -/
inductive Cell where
  | str (v : String)
  | num (v : Int)
  | date (v : Nat)
  | null
deriving DecidableEq

/-- A DataFrame: an ordered list of named columns. -/
abbrev Table := List (String × List Cell)

/-- Names of the columns of a table, in order. -/
def colNames (t : Table) : List String := t.map Prod.fst

/-- All-digit character list to a number (helper for the date parser). -/
def parseNatDigits (l : List Char) : Option Nat :=
  if l ≠ [] ∧ l.all Char.isDigit then
    some (l.foldl (fun n c => n * 10 + (c.toNat - 48)) 0)
  else none

/-- Split a character list on a separator character. -/
def splitChar (sep : Char) : List Char → List (List Char)
  | [] => [[]]
  | c :: cs =>
    match splitChar sep cs with
    | [] => [[]]
    | g :: gs => if c = sep then [] :: g :: gs else (c :: g) :: gs

/-- Modelled from the spec: `pd.to_datetime` itself is library code, not part
of this repository; the spec (§ 6) requires `Date` to be an ISO-8601 calendar
date, so an ISO `YYYY-MM-DD` parser stands in for it.  Returns the date
encoded as yyyymmdd, or `none` on an unparseable value. -/
def parseDate (s : String) : Option Nat :=
  match (splitChar '-' (trimChars s.data)).map parseNatDigits with
  | [some y, some m, some d] =>
    if 1 ≤ m ∧ m ≤ 12 ∧ 1 ≤ d ∧ d ≤ 31 then some (y * 10000 + m * 100 + d)
    else none
  | _ => none

/-- Per-cell action of `pd.to_datetime(df['date'], errors='coerce')`: an
unparseable value becomes the null sentinel `NaT`; the row is kept.  (A
numeric cell is read as an epoch offset by pandas; no claim exercises it.) -/
def to_datetime_coerce (c : Cell) : Cell :=
  match c with
  | .str v => match parseDate v with
    | some d => .date d
    | none => .null
  | .date d => .date d
  | .num v => .date v.natAbs
  | .null => .null

/-- Per-cell action of `df['engagements'].fillna(0)`: only a missing value is
replaced by 0; every other cell — including an unparseable string — is left
unchanged (the source performs no numeric coercion). -/
def fillna0 (c : Cell) : Cell :=
  match c with
  | .null => .num 0
  | c => c

/-- Rename every column of a table (the column-name assignment of
`clean_data`). -/
def renameCols (t : Table) : Table :=
  t.map (fun c => (normalizeName c.1, c.2))

/-- Apply a per-cell function to the column of the given name, when present
(models `if name in df.columns: df[name] = f(df[name])`). -/
def mapCol (t : Table) (name : String) (f : Cell → Cell) : Table :=
  if name ∈ colNames t then
    t.map (fun c => if c.1 = name then (c.1, c.2.map f) else c)
  else t

/-- The Normalizer, `clean_data` of `streamlit_app.py` lines 7-25: rename all
columns, coerce the `date` column, fill missing `engagements` with 0. -/
def clean_data (t : Table) : Table :=
  mapCol (mapCol (renameCols t) "date" to_datetime_coerce) "engagements" fillna0

/-- Pointwise description of `clean_data` on one column (proved equal to
`clean_data` below). -/
def cleanStep (c : String × List Cell) : String × List Cell :=
  if normalizeName c.1 = "date" then
    (normalizeName c.1, c.2.map to_datetime_coerce)
  else if normalizeName c.1 = "engagements" then
    (normalizeName c.1, c.2.map fillna0)
  else (normalizeName c.1, c.2)

/-- The six required canonical column names (`streamlit_app.py` line 82). -/
def requiredCols : List String :=
  ["date", "platform", "sentiment", "location", "engagements", "media_type"]

/-- The blocking message of `st.error` at `streamlit_app.py` line 83. -/
def schemaErrorMsg : String :=
  "Error: The uploaded CSV must contain the columns: \x27Date\x27, \x27Platform\x27, \x27Sentiment\x27, \x27Location\x27, \x27Engagements\x27, \x27Media Type\x27. Please check your file."

/-- One record of the normalized Dataset (spec § 3): the date is nullable,
`engagements` is numeric after cleaning, the remaining fields are category
labels. -/
structure Row where
  date : Option Nat
  platform : String
  sentiment : String
  location : String
  media_type : String
  engagements : Int
deriving DecidableEq

/-- First column of the given name, as a list of cells (models `df[name]`). -/
def getCol (t : Table) (name : String) : List Cell :=
  ((t.find? (fun c => c.1 = name)).map Prod.snd).getD []

/-- Date stored in a cell, if any. -/
def cellDate (c : Cell) : Option Nat :=
  match c with
  | .date d => some d
  | _ => none

/-- Numeric value of a cell; a Record of the data model carries a numeric
`engagements` cell, other cells read as 0. -/
def cellInt (c : Cell) : Int :=
  match c with
  | .num v => v
  | _ => 0

/-- String label of a cell. -/
def cellStr (c : Cell) : String :=
  match c with
  | .str v => v
  | _ => ""

/-- View a validated, cleaned table as the Dataset handed to the aggregators
(a DataFrame's columns all share the same length; rows are read off by
index). -/
def toDataset (t : Table) : List Row :=
  (List.range (getCol t "date").length).map (fun i =>
    { date := cellDate ((getCol t "date").getD i Cell.null)
      platform := cellStr ((getCol t "platform").getD i Cell.null)
      sentiment := cellStr ((getCol t "sentiment").getD i Cell.null)
      location := cellStr ((getCol t "location").getD i Cell.null)
      media_type := cellStr ((getCol t "media_type").getD i Cell.null)
      engagements := cellInt ((getCol t "engagements").getD i Cell.null) })

/-- Descending-by-count order on the rows of a counts table. -/
def descNat (p q : String × Nat) : Prop := q.2 ≤ p.2

instance : DecidableRel descNat := fun p q => Nat.decLe q.2 p.2

instance : IsTotal (String × Nat) descNat := ⟨fun a b => Nat.le_total b.2 a.2⟩

instance : IsTrans (String × Nat) descNat := ⟨fun _ _ _ hab hbc => le_trans hbc hab⟩

/-- Descending-by-sum order on the rows of a sums table. -/
def descInt (p q : String × Int) : Prop := q.2 ≤ p.2

instance : DecidableRel descInt := fun p q => Int.decLe q.2 p.2

instance : IsTotal (String × Int) descInt := ⟨fun a b => Int.le_total b.2 a.2⟩

instance : IsTrans (String × Int) descInt := ⟨fun _ _ _ hab hbc => le_trans hbc hab⟩

/-- Lexicographic comparison of character lists (used for the ascending key
order of a pandas `groupby`). -/
def charListLe : List Char → List Char → Bool
  | [], _ => true
  | _ :: _, [] => false
  | a :: as, b :: bs => if a < b then true else if a = b then charListLe as bs else false

/-- Ascending order on strings (a pandas `groupby` sorts group keys). -/
def strAsc (a b : String) : Prop := charListLe a.data b.data = true

instance : DecidableRel strAsc :=
  fun a b => inferInstanceAs (Decidable (charListLe a.data b.data = true))

/-- The `value_counts()` aggregation: one row per distinct value, counting
occurrences, sorted descending by count. -/
def value_counts (l : List String) : List (String × Nat) :=
  (l.dedup.map (fun k => (k, l.count k))).insertionSort descNat

/-- Sentiment-mix counts, `streamlit_app.py` lines 87-88:
`df['sentiment'].value_counts()`. -/
def sentiment_counts (d : List Row) : List (String × Nat) :=
  value_counts (d.map Row.sentiment)

/-- Media-type-mix counts, `streamlit_app.py` lines 130-131:
`df['media_type'].value_counts()`. -/
def media_type_counts (d : List Row) : List (String × Nat) :=
  value_counts (d.map Row.media_type)

/-- Percentage column added at `streamlit_app.py` lines 89 and 132:
`counts['percentage'] = counts['count'] / counts['count'].sum() * 100`. -/
def add_percentage (tbl : List (String × Nat)) : List (String × Nat × ℚ) :=
  tbl.map (fun p => (p.1, p.2, (p.2 : ℚ) / (((tbl.map Prod.snd).sum : ℕ) : ℚ) * 100))

/-- Sentiment-mix Summary Table with its percentage column. -/
def sentiment_table (d : List Row) : List (String × Nat × ℚ) :=
  add_percentage (sentiment_counts d)

/-- Media-type-mix Summary Table with its percentage column. -/
def media_type_table (d : List Row) : List (String × Nat × ℚ) :=
  add_percentage (media_type_counts d)

/-- Sum of the percentage column of a Summary Table. -/
def pctSum (tbl : List (String × Nat × ℚ)) : ℚ :=
  (tbl.map (fun p => p.2.2)).sum

/-- The `groupby(key)['engagements'].sum()` aggregation: one row per distinct
key (keys ascending, as pandas sorts group keys), summing engagements. -/
def groupSumBy (d : List Row) (key : Row → String) : List (String × Int) :=
  ((d.map key).dedup.insertionSort strAsc).map
    (fun k => (k, ((d.filter (fun r => key r == k)).map Row.engagements).sum))

/-- Platform-totals Summary Table, `streamlit_app.py` line 116:
`df.groupby('platform')['engagements'].sum().sort_values(ascending=False)`. -/
def platform_engagements (d : List Row) : List (String × Int) :=
  (groupSumBy d Row.platform).insertionSort descInt

/-- Top-locations Summary Table, `streamlit_app.py` line 145:
`df.groupby('location')['engagements'].sum().sort_values(ascending=False).head(5)`. -/
def location_engagements (d : List Row) : List (String × Int) :=
  ((groupSumBy d Row.location).insertionSort descInt).take 5

/-- Top-locations table of `app.py` lines 65-66:
`filtered_df['location'].value_counts().head(5)` — note this counts rows per
location, it does not sum engagements. -/
def top_locations (d : List Row) : List (String × Nat) :=
  (value_counts (d.map Row.location)).take 5

/-- One row of a Summary Table as seen by `generate_insights`.  A pandas row
is a label-indexed record; each chart kind reads only its own columns, so a
single record type carrying every column that some branch reads (with inert
defaults for the rest) models the frame row. -/
structure SRow where
  sentiment : String := ""
  platform : String := ""
  media_type : String := ""
  location : String := ""
  date : Option Nat := none
  count : Nat := 0
  engagements : Int := 0
  percentage : ℚ := 0
deriving DecidableEq

/-- Render yyyymmdd as `YYYY-MM-DD` (models `strftime('%Y-%m-%d')`). -/
def fmtDate (d : Option Nat) : String :=
  match d with
  | some v =>
    let m := v / 100 % 100
    let dd := v % 100
    toString (v / 10000) ++ "-" ++ (if m < 10 then "0" else "") ++ toString m
      ++ "-" ++ (if dd < 10 then "0" else "") ++ toString dd
  | none => "NaT"

/-- Render a rational with one decimal place (models the `:.1f` format; the
exact tie-breaking of float rounding is immaterial to every theorem below). -/
def fmtPct (x : ℚ) : String :=
  let n : Int := round (x * 10)
  toString (n / 10) ++ "." ++ toString (n % 10)

/-- Render a rational rounded to an integer (models the `:,.0f` format;
thousands separators are omitted — no theorem below inspects the digits). -/
def fmtAvg (x : ℚ) : String := toString (round x : Int)

/-- Row of the first occurrence of the maximal `f`-value (models
`data.loc[data[col].idxmax()]`); `none` exactly on an empty frame, where
pandas raises. -/
def argmaxRow (f : SRow → Int) : List SRow → Option SRow
  | [] => none
  | r :: rs =>
    match argmaxRow f rs with
    | none => some r
    | some m => if f r < f m then some m else some r

/-- Row of the first occurrence of the minimal `f`-value (models
`data.loc[data[col].idxmin()]`). -/
def argminRow (f : SRow → Int) : List SRow → Option SRow
  | [] => none
  | r :: rs =>
    match argminRow f rs with
    | none => some r
    | some m => if f m < f r then some m else some r

/-- Sum of the counts of the rows with the given sentiment label (models
`data[data['sentiment'] == lbl]['count'].sum()`). -/
def countFor (data : List SRow) (lbl : String) : Nat :=
  ((data.filter (fun r => r.sentiment == lbl)).map SRow.count).sum

/-- The Insight Generator, `generate_insights` of `streamlit_app.py` lines
27-68.  `.error` models the Python exception raised by `iloc[0]` or
`idxmax()` on an empty frame; every other path returns the list of formatted
insight sentences. -/
def generate_insights (chart_title : String) (data : List SRow)
    (chart_type : String) : Except String (List String) :=
  if chart_type = "pie_sentiment" then
    let total_sentiment : Nat := (data.map SRow.count).sum
    let positive_percent : ℚ :=
      if 0 < total_sentiment then (countFor data "Positive" : ℚ) / (total_sentiment : ℚ) * 100 else 0
    let negative_percent : ℚ :=
      if 0 < total_sentiment then (countFor data "Negative" : ℚ) / (total_sentiment : ℚ) * 100 else 0
    let _neutral_percent : ℚ :=
      if 0 < total_sentiment then (countFor data "Neutral" : ℚ) / (total_sentiment : ℚ) * 100 else 0
    match data.head? with
    | none => .error "single positional indexer is out-of-bounds"
    | some r0 =>
      .ok ["1. A majority of the sentiment is **" ++ r0.sentiment ++ "** ("
            ++ fmtPct r0.percentage ++ "%).",
          "2. Approximately **" ++ fmtPct positive_percent
            ++ "%** of the mentions are positive, indicating a generally favorable perception.",
          "3. Negative sentiment accounts for **" ++ fmtPct negative_percent
            ++ "%**, which might indicate areas for improvement or concerns."]
  else if chart_type = "line_engagement" then
    match argmaxRow SRow.engagements data, argminRow SRow.engagements data with
    | some peak_date, some min_date =>
      let _total_engagements : Int := (data.map SRow.engagements).sum
      let avg_engagements : ℚ := ((data.map SRow.engagements).sum : ℚ) / (data.length : ℚ)
      .ok ["1. Peak engagement occurred on **" ++ fmtDate peak_date.date
            ++ "** with **" ++ toString peak_date.engagements ++ "** engagements.",
          "2. The lowest engagement was observed on **" ++ fmtDate min_date.date
            ++ "** with **" ++ toString min_date.engagements ++ "** engagements.",
          "3. The average daily engagement over the period is approximately **"
            ++ fmtAvg avg_engagements ++ "**."]
    | _, _ => .error "attempt to get argmax of an empty sequence"
  else if chart_type = "bar_platform" then
    match data.head? with
    | none => .error "single positional indexer is out-of-bounds "
    | some top_platform =>
      let second : List String :=
        if h : 1 < data.length then
          ["2. **" ++ (data.get ⟨1, h⟩).platform
            ++ "** is the second most engaging platform with **"
            ++ toString (data.get ⟨1, h⟩).engagements
            ++ "** engagements, significantly less than the top platform."]
        else []
      let total_engagements : Int := (data.map SRow.engagements).sum
      .ok (["1. **" ++ top_platform.platform
              ++ "** is the dominant platform, contributing **"
              ++ toString top_platform.engagements ++ "** engagements."]
            ++ second
            ++ ["3. These platforms collectively generated **"
              ++ toString total_engagements
              ++ "** engagements, highlighting their importance in the campaign\x27s reach."])
  else if chart_type = "pie_media_type" then
    match data.head? with
    | none => .error "single positional indexer is out-of-bounds  "
    | some top_media_type =>
      let second : List String :=
        if h : 1 < data.length then
          ["2. **" ++ (data.get ⟨1, h⟩).media_type
            ++ "** is the second most used media type, making up **"
            ++ fmtPct (data.get ⟨1, h⟩).percentage ++ "%** of the content."]
        else []
      .ok (["1. **" ++ top_media_type.media_type
              ++ "** is the most prevalent media type, accounting for **"
              ++ fmtPct top_media_type.percentage ++ "%** of the content."]
            ++ second
            ++ ["3. The mix of media types indicates a diverse content strategy, with a strong reliance on **"
              ++ top_media_type.media_type ++ "**."])
  else if chart_type = "bar_location" then
    match data.head? with
    | none => .error "single positional indexer is out-of-bounds   "
    | some top_location =>
      let second : List String :=
        if h : 1 < data.length then
          ["2. **" ++ (data.get ⟨1, h⟩).location ++ "** follows with **"
            ++ toString (data.get ⟨1, h⟩).engagements
            ++ "** engagements, suggesting a strong presence in these two regions."]
        else []
      .ok (["1. **" ++ top_location.location
              ++ "** is the top location for engagements, with **"
              ++ toString top_location.engagements ++ "** engagements."]
            ++ second
            ++ ["3. The top 5 locations collectively represent a significant portion of the total campaign reach and engagement."])
  else .ok []

/-- The five chart-kind tags dispatched by `generate_insights`. -/
def chartKinds : List String :=
  ["pie_sentiment", "line_engagement", "bar_platform", "pie_media_type", "bar_location"]

/-- The upload-to-aggregation pipeline of `streamlit_app.py` lines 80-145:
clean the table, stop with the schema error if a required column is missing
(`st.error` + `st.stop`), otherwise hand the Dataset to the aggregators.
`.error` models the halted render: past it no aggregation runs. -/
def runPipeline (t : Table) :
    Except String
      (List (String × Nat × ℚ) × List (String × Int) × List (String × Nat × ℚ) × List (String × Int)) :=
  let df := clean_data t
  if requiredCols.all (fun c => c ∈ colNames df) then
    let d := toDataset df
    .ok (sentiment_table d, platform_engagements d, media_type_table d, location_engagements d)
  else .error schemaErrorMsg

/-- Spec § 8 scenario dataset: three records over two dates, two platforms,
two locations. -/
def exRows : List Row :=
  [⟨some 20240301, "FB", "Positive", "Cairo", "Image", 10⟩,
   ⟨some 20240301, "IG", "Negative", "Cairo", "Video", 5⟩,
   ⟨some 20240302, "FB", "Positive", "Giza", "Image", 20⟩]

/-- Dataset on which row counts and engagement sums rank locations
differently: location A has one row of 10 engagements, location B two rows of
3 each. -/
def exC2 : List Row :=
  [⟨none, "FB", "Positive", "A", "Image", 10⟩,
   ⟨none, "IG", "Negative", "B", "Video", 3⟩,
   ⟨none, "FB", "Positive", "B", "Image", 3⟩]

/-- A raw table whose headers are the canonical six up to case and spacing. -/
def tCanon : Table :=
  [(" Date", []), ("Platform", []), ("SENTIMENT", []), ("Location ", []),
   ("Engagements", []), ("Media Type", [])]

/-- A raw table missing the Sentiment column. -/
def tBad : Table :=
  [("Date", []), ("Platform", []), ("Location", []), ("Engagements", []),
   ("Media Type", [])]

/-- A raw table whose engagements column holds a non-numeric, non-missing
value. -/
def tC5 : Table := [("Engagements", [Cell.str "abc"])]

/-- A raw table with an unparseable date and a missing engagement. -/
def tW : Table := [("Date", [Cell.str "not-a-date"]), ("Engagements", [Cell.null])]

/-- A raw table with an extra column unknown to the schema. -/
def tExtra : Table := [("Date", [Cell.str "2024-03-01"]), ("Notes", [Cell.str "x"])]

/-- A one-row platform-totals Summary Table. -/
def srow1 : SRow := { platform := "FB", engagements := 30 }

/-! ## Helper lemmas -/

theorem mapCol_eq (t : Table) (name : String) (f : Cell → Cell) :
    mapCol t name f = t.map (fun c => if c.1 = name then (c.1, c.2.map f) else c) := by
  unfold mapCol
  split
  · rfl
  · next h =>
    have he : ∀ c ∈ t, (if c.1 = name then (c.1, c.2.map f) else c) = id c := by
      intro c hc
      rw [if_neg, id]
      intro e
      exact h (e ▸ List.mem_map_of_mem Prod.fst hc)
    rw [List.map_congr_left he, List.map_id]

theorem clean_data_eq (t : Table) : clean_data t = t.map cleanStep := by
  unfold clean_data renameCols
  rw [mapCol_eq, mapCol_eq, List.map_map, List.map_map]
  refine List.map_congr_left (fun c _ => ?_)
  simp only [Function.comp]
  by_cases h1 : normalizeName c.1 = "date"
  · simp [cleanStep, h1]
  · by_cases h2 : normalizeName c.1 = "engagements" <;> simp [cleanStep, h1, h2]

theorem cleanStep_fst (c : String × List Cell) :
    (cleanStep c).1 = normalizeName c.1 := by
  unfold cleanStep
  split_ifs <;> rfl

theorem mem_zip_map {α β : Type _} (f : α → β) :
    ∀ (l : List α) (p : α × β), p ∈ l.zip (l.map f) → p.2 = f p.1
  | a :: l, p, hp => by
    rw [List.map_cons, List.zip_cons_cons, List.mem_cons] at hp
    rcases hp with h | h
    · rw [h]
    · exact mem_zip_map f l p h

theorem argmaxRow_cons (f : SRow → Int) (r : SRow) (rs : List SRow) :
    ∃ m, argmaxRow f (r :: rs) = some m := by
  unfold argmaxRow
  cases argmaxRow f rs with
  | none => exact ⟨r, rfl⟩
  | some m =>
    dsimp only
    split
    · exact ⟨m, rfl⟩
    · exact ⟨r, rfl⟩

theorem argminRow_cons (f : SRow → Int) (r : SRow) (rs : List SRow) :
    ∃ m, argminRow f (r :: rs) = some m := by
  unfold argminRow
  cases argminRow f rs with
  | none => exact ⟨r, rfl⟩
  | some m =>
    dsimp only
    split
    · exact ⟨m, rfl⟩
    · exact ⟨r, rfl⟩

/-! ## C1 -/

/-- C1, amended.  For the empty Summary Table, every Insight Generator call
with one of the five chart-kind tags fails (the first-row / argmax access of
`generate_insights` raises on an empty frame); it does not return a "no
data" sentence set. -/
theorem C1_empty_gi_errors (title : String) :
    generate_insights title [] "pie_sentiment"
      = .error "single positional indexer is out-of-bounds"
  ∧ generate_insights title [] "line_engagement"
      = .error "attempt to get argmax of an empty sequence"
  ∧ generate_insights title [] "bar_platform"
      = .error "single positional indexer is out-of-bounds "
  ∧ generate_insights title [] "pie_media_type"
      = .error "single positional indexer is out-of-bounds  "
  ∧ generate_insights title [] "bar_location"
      = .error "single positional indexer is out-of-bounds   " :=
  ⟨rfl, rfl, rfl, rfl, rfl⟩

/-- C1, counterexample to the claim as stated: on the empty Summary Table the
pie-sentiment Insight Generator call is an exception, not an empty or
"no data" sentence set. -/
theorem C1_counterexample :
    generate_insights "Sentiment Breakdown" [] "pie_sentiment"
      = .error "single positional indexer is out-of-bounds"
  ∧ (generate_insights "Sentiment Breakdown" [] "pie_sentiment").isOk = false :=
  ⟨rfl, rfl⟩

/-! ## C6 -/

/-- C6, amended.  For every non-empty Summary Table the Insight Generator
returns exactly 3 sentences for the sentiment and trend templates, and 2 or 3
sentences for the platform, media-type and location templates, depending on
whether a second-ranked row exists. -/
theorem C6_insight_counts (title : String) (data : List SRow) (h : data ≠ []) :
    (generate_insights title data "pie_sentiment").map List.length = .ok 3
  ∧ (generate_insights title data "line_engagement").map List.length = .ok 3
  ∧ (generate_insights title data "bar_platform").map List.length
      = .ok (if 1 < data.length then 3 else 2)
  ∧ (generate_insights title data "pie_media_type").map List.length
      = .ok (if 1 < data.length then 3 else 2)
  ∧ (generate_insights title data "bar_location").map List.length
      = .ok (if 1 < data.length then 3 else 2) := by
  obtain ⟨r, rs, rfl⟩ := List.exists_cons_of_ne_nil h
  refine ⟨rfl, ?_, ?_, ?_, ?_⟩
  · obtain ⟨m, hm⟩ := argmaxRow_cons SRow.engagements r rs
    obtain ⟨m', hm'⟩ := argminRow_cons SRow.engagements r rs
    unfold generate_insights
    rw [if_neg (by decide), if_pos rfl, hm, hm']
    rfl
  all_goals
    unfold generate_insights
  · rw [if_neg (by decide), if_neg (by decide), if_pos rfl]
    by_cases hl : 1 < (r :: rs).length
    · rw [dif_pos hl, if_pos hl]
      rfl
    · rw [dif_neg hl, if_neg hl]
      rfl
  · rw [if_neg (by decide), if_neg (by decide), if_neg (by decide), if_pos rfl]
    by_cases hl : 1 < (r :: rs).length
    · rw [dif_pos hl, if_pos hl]
      rfl
    · rw [dif_neg hl, if_neg hl]
      rfl
  · rw [if_neg (by decide), if_neg (by decide), if_neg (by decide), if_neg (by decide),
      if_pos rfl]
    by_cases hl : 1 < (r :: rs).length
    · rw [dif_pos hl, if_pos hl]
      rfl
    · rw [dif_neg hl, if_neg hl]
      rfl

/-- C6, witness: the amended count statement applied to a concrete one-row
table. -/
theorem C6_witness :
    ([srow1] : List SRow) ≠ []
  ∧ (generate_insights "Sentiment Breakdown" [srow1] "pie_sentiment").map List.length
      = .ok 3 :=
  ⟨List.cons_ne_nil _ _,
    (C6_insight_counts "Sentiment Breakdown" [srow1] (List.cons_ne_nil _ _)).1⟩

/-- C6, counterexample to the claim as stated: a one-row platform-totals
Summary Table yields 2 sentences from the platform template, not 3. -/
theorem C6_counterexample :
    (generate_insights "Engagements by Platform" [srow1] "bar_platform").map List.length
      = .ok 2
  ∧ (2 : Nat) ≠ 3 :=
  ⟨rfl, by decide⟩

/-! ## C10 -/

/-- C10.  For every Summary Table and every chart-kind tag outside the five
recognized tags, `generate_insights` returns the empty sentence sequence
rather than failing. -/
theorem C10_unknown_kind (title : String) (data : List SRow) (tag : String)
    (h : tag ∉ chartKinds) : generate_insights title data tag = .ok [] := by
  simp only [chartKinds, List.mem_cons, List.not_mem_nil, or_false, not_or] at h
  obtain ⟨h1, h2, h3, h4, h5⟩ := h
  unfold generate_insights
  rw [if_neg h1, if_neg h2, if_neg h3, if_neg h4, if_neg h5]

/-- C10, witness: an unrecognized tag on a concrete table returns `ok []`. -/
theorem C10_witness :
    ("bar_chart" ∉ chartKinds)
  ∧ generate_insights "Anything" [srow1] "bar_chart" = .ok [] :=
  ⟨by decide, C10_unknown_kind "Anything" [srow1] "bar_chart" (by decide)⟩

/-! ## C3 -/

/-- C3, amended.  The Normalizer renames every column by trimming whitespace,
lower-casing, replacing spaces with underscores and DELETING periods (the
source replaces a period with the empty string, not with an underscore; the
`app.py` variant leaves periods untouched).  A valid input whose headers
match the canonical six up to case and surrounding whitespace yields exactly
the six canonical column names. -/
theorem C3_normalizer_rename (t : Table) :
    colNames (clean_data t) = (colNames t).map normalizeName
  ∧ colNames (clean_data tCanon) = requiredCols
  ∧ normalizeName " Media Type " = "media_type"
  ∧ normalizeName "Media.Type" = "mediatype"
  ∧ normalizeName_app "Media.Type" = "media.type" := by
  refine ⟨?_, by decide, by decide, by decide, by decide⟩
  rw [clean_data_eq]
  unfold colNames
  rw [List.map_map, List.map_map]
  exact List.map_congr_left (fun c _ => cleanStep_fst c)

/-- C3, counterexample to the claim as stated: the code deletes the period of
the column name `Media.Type`, producing `mediatype`, while the claimed
period-to-underscore replacement would produce the canonical `media_type`. -/
theorem C3_counterexample :
    normalizeName "Media.Type" = "mediatype"
  ∧ normalizeName_spec "Media.Type" = "media_type"
  ∧ colNames (clean_data [("Media.Type", [])]) = ["mediatype"]
  ∧ ("mediatype" : String) ≠ "media_type" :=
  ⟨by decide, by decide, by decide, by decide⟩

/-! ## C9 -/

/-- C9.  The Normalizer modifies the values only of the `date` and
`engagements` columns: every column is kept (the output pairs with the input
column for column), its name is the renamed input name, and when the renamed
name is neither `date` nor `engagements` its values pass through unchanged —
in particular unknown extra columns are not removed. -/
theorem C9_frame (t : Table) :
    colNames (clean_data t) = (colNames t).map normalizeName
  ∧ (clean_data t).length = t.length
  ∧ ∀ p ∈ t.zip (clean_data t),
      p.2.1 = normalizeName p.1.1
      ∧ (normalizeName p.1.1 ≠ "date" → normalizeName p.1.1 ≠ "engagements" →
          p.2.2 = p.1.2) := by
  refine ⟨?_, ?_, ?_⟩
  · rw [clean_data_eq]
    unfold colNames
    rw [List.map_map, List.map_map]
    exact List.map_congr_left (fun c _ => cleanStep_fst c)
  · rw [clean_data_eq, List.length_map]
  · intro p hp
    rw [clean_data_eq] at hp
    have hps := mem_zip_map cleanStep t p hp
    constructor
    · rw [hps, cleanStep_fst]
    · intro h1 h2
      rw [hps]
      unfold cleanStep
      rw [if_neg h1, if_neg h2]

/-- C9, witness: in a concrete table with the extra column `Notes`, the
renamed column keeps its values unchanged. -/
theorem C9_witness :
    ((("Notes", [Cell.str "x"]), ("notes", [Cell.str "x"]))
        ∈ tExtra.zip (clean_data tExtra))
  ∧ (("Notes", [Cell.str "x"]), ("notes", [Cell.str "x"])).2.2
      = (("Notes", [Cell.str "x"]), ("notes", [Cell.str "x"])).1.2 :=
  ⟨by decide,
    (((C9_frame tExtra).2.2 (("Notes", [Cell.str "x"]), ("notes", [Cell.str "x"]))
      (by decide)).2 (by decide) (by decide))⟩

/-! ## C5 -/

/-- C5, amended.  Cell-level cleaning never drops a row: every column keeps
its length; the `date` column is mapped cell-by-cell by the coercing date
parse, under which an unparseable value becomes the null sentinel; the
`engagements` column is mapped cell-by-cell by `fillna(0)`, under which a
missing value becomes 0 — but a present, unparseable engagements value is
left unchanged (the source never coerces `engagements` to numeric). -/
theorem C5_parse_recovery (t : Table) :
    (∀ p ∈ t.zip (clean_data t), (p.2.2).length = (p.1.2).length)
  ∧ (∀ p ∈ t.zip (clean_data t), normalizeName p.1.1 = "date" →
      p.2.2 = (p.1.2).map to_datetime_coerce)
  ∧ (∀ p ∈ t.zip (clean_data t), normalizeName p.1.1 = "engagements" →
      p.2.2 = (p.1.2).map fillna0)
  ∧ (∀ v, parseDate v = none → to_datetime_coerce (Cell.str v) = Cell.null)
  ∧ fillna0 Cell.null = Cell.num 0
  ∧ (∀ c, c ≠ Cell.null → fillna0 c = c) := by
  have hstep : ∀ p ∈ t.zip (clean_data t), p.2 = cleanStep p.1 := by
    intro p hp
    rw [clean_data_eq] at hp
    exact mem_zip_map cleanStep t p hp
  refine ⟨?_, ?_, ?_, ?_, rfl, ?_⟩
  · intro p hp
    rw [hstep p hp]
    unfold cleanStep
    split_ifs <;> simp
  · intro p hp h1
    rw [hstep p hp]
    unfold cleanStep
    rw [if_pos h1]
  · intro p hp h2
    rw [hstep p hp]
    unfold cleanStep
    rw [if_neg, if_pos h2]
    rw [h2]
    decide
  · intro v hv
    simp only [to_datetime_coerce, hv]
  · intro c hc
    cases c with
    | null => exact absurd rfl hc
    | str v => rfl
    | num v => rfl
    | date v => rfl

/-- C5, witness: in a concrete table, the unparseable date `not-a-date`
becomes the null sentinel with the row retained, and the missing engagement
becomes 0. -/
theorem C5_witness :
    ((("Date", [Cell.str "not-a-date"]), ("date", [Cell.null]))
        ∈ tW.zip (clean_data tW))
  ∧ (("Date", [Cell.str "not-a-date"]), ("date", [Cell.null])).2.2
      = [Cell.str "not-a-date"].map to_datetime_coerce
  ∧ ((("Engagements", [Cell.null]), ("engagements", [Cell.num 0]))
        ∈ tW.zip (clean_data tW))
  ∧ (("Engagements", [Cell.null]), ("engagements", [Cell.num 0])).2.2
      = [Cell.null].map fillna0 :=
  ⟨by decide,
    (C5_parse_recovery tW).2.1 (("Date", [Cell.str "not-a-date"]), ("date", [Cell.null]))
      (by decide) (by decide),
  by decide,
    (C5_parse_recovery tW).2.2.1 (("Engagements", [Cell.null]), ("engagements", [Cell.num 0]))
      (by decide) (by decide)⟩

/-- C5, counterexample to the claim as stated: a present but unparseable
engagements value (`"abc"`) is NOT turned into 0 by the Normalizer; it passes
through unchanged, because the source only fills missing values. -/
theorem C5_counterexample :
    getCol (clean_data tC5) "engagements" = [Cell.str "abc"]
  ∧ Cell.str "abc" ≠ Cell.num 0 :=
  ⟨by decide, by decide⟩

/-! ## C4 -/

/-- C4.  When any of the six required columns is absent after renaming, the
pipeline stops with the schema error message: the error is surfaced and no
aggregation output is produced. -/
theorem C4_schema_halt (t : Table)
    (h : ∃ c ∈ requiredCols, c ∉ colNames (clean_data t)) :
    runPipeline t = .error schemaErrorMsg := by
  obtain ⟨c, hc, hnc⟩ := h
  unfold runPipeline
  rw [if_neg]
  intro hall
  rw [List.all_eq_true] at hall
  exact hnc (of_decide_eq_true (hall c hc))

/-- C4, witness: a concrete upload missing the Sentiment column halts with
the schema error. -/
theorem C4_witness :
    (∃ c ∈ requiredCols, c ∉ colNames (clean_data tBad))
  ∧ runPipeline tBad = .error schemaErrorMsg :=
  ⟨by decide, C4_schema_halt tBad (by decide)⟩

/-! ## Aggregation helper lemmas -/

theorem sum_map_filter_add (p : Row → Bool) (f : Row → Int) (l : List Row) :
    ((l.filter p).map f).sum + ((l.filter (fun a => !(p a))).map f).sum
      = (l.map f).sum := by
  induction l with
  | nil => rfl
  | cons a l ih => by_cases h : p a <;> simp [List.filter_cons, h] <;> omega

theorem sum_groups (f : Row → Int) (key : Row → String) :
    ∀ ks : List String, ks.Nodup → ∀ d : List Row, (∀ r ∈ d, key r ∈ ks) →
      (ks.map (fun k => ((d.filter (fun r => key r == k)).map f).sum)).sum
        = (d.map f).sum := by
  intro ks
  induction ks with
  | nil =>
    intro _ d hcov
    cases d with
    | nil => rfl
    | cons a l => exact absurd (hcov a (List.mem_cons_self a l)) (List.not_mem_nil _)
  | cons k ks ih =>
    intro hnd d hcov
    rw [List.nodup_cons] at hnd
    have hcov' : ∀ r ∈ d.filter (fun r => !(key r == k)), key r ∈ ks := by
      intro r hr
      rw [List.mem_filter] at hr
      have h1 := hcov r hr.1
      rw [List.mem_cons] at h1
      rcases h1 with h1 | h1
      · exfalso
        have : (key r == k) = true := beq_iff_eq.2 h1
        rw [this] at hr
        exact absurd hr.2 (by decide)
      · exact h1
    have hmap : ∀ k' ∈ ks,
        ((d.filter (fun r => key r == k')).map f).sum
          = (((d.filter (fun r => !(key r == k))).filter (fun r => key r == k')).map f).sum := by
      intro k' hk'
      rw [List.filter_filter]
      have hpt : ∀ a ∈ d, (key a == k') = ((key a == k') && !(key a == k)) := by
        intro a _
        by_cases ha : (key a == k') = true
        · have hak : key a = k' := beq_iff_eq.1 ha
          have hkk : (key a == k) = false := by
            rw [beq_eq_false_iff_ne, hak]
            intro e
            exact hnd.1 (e ▸ hk')
          rw [ha, hkk]
          rfl
        · rw [Bool.not_eq_true] at ha
          rw [ha]
          rfl
      rw [List.filter_congr hpt]
    rw [List.map_cons, List.sum_cons, List.map_congr_left hmap,
      ih hnd.2 _ hcov']
    exact sum_map_filter_add (fun r => key r == k) f d

theorem sum_snd_value_counts (l : List String) :
    ((value_counts l).map Prod.snd).sum = l.length := by
  unfold value_counts
  rw [((List.perm_insertionSort descNat _).map Prod.snd).sum_eq, List.map_map]
  exact List.sum_map_count_dedup_eq_length l

theorem sum_snd_groupSumBy (d : List Row) (key : Row → String) :
    ((groupSumBy d key).map Prod.snd).sum = (d.map Row.engagements).sum := by
  unfold groupSumBy
  rw [List.map_map, ((List.perm_insertionSort strAsc _).map _).sum_eq]
  refine sum_groups Row.engagements key _ (List.nodup_dedup _) d ?_
  intro r hr
  exact List.mem_dedup.2 (List.mem_map_of_mem key hr)

theorem pctSum_add_percentage (tbl : List (String × Nat))
    (h : (tbl.map Prod.snd).sum ≠ 0) : pctSum (add_percentage tbl) = 100 := by
  unfold pctSum add_percentage
  rw [List.map_map]
  have h1 : ∀ p ∈ tbl,
      ((fun p => p.2.2) ∘ fun p : String × Nat =>
        (p.1, p.2, (p.2 : ℚ) / (((tbl.map Prod.snd).sum : ℕ) : ℚ) * 100)) p
      = (fun p : String × Nat =>
          (p.2 : ℚ) * (100 / (((tbl.map Prod.snd).sum : ℕ) : ℚ))) p := by
    intro p _
    simp only [Function.comp]
    rw [div_mul_eq_mul_div, mul_div_assoc]
  rw [List.map_congr_left h1, List.sum_map_mul_right]
  have h2 : (tbl.map fun p : String × Nat => ((p.2 : ℕ) : ℚ)).sum
      = (((tbl.map Prod.snd).sum : ℕ) : ℚ) := by
    rw [Nat.cast_list_sum, List.map_map]
    rfl
  rw [h2, mul_comm, div_mul_cancel₀]
  exact Nat.cast_ne_zero.2 h

theorem mem_value_counts (l : List String) (p : String × Nat)
    (hp : p ∈ value_counts l) : p.2 = l.count p.1 ∧ p.1 ∈ l := by
  unfold value_counts at hp
  rw [(List.perm_insertionSort descNat _).mem_iff] at hp
  obtain ⟨k, hk, he⟩ := List.mem_map.1 hp
  rw [← he]
  exact ⟨rfl, List.mem_dedup.1 hk⟩

theorem mem_groupSumBy (d : List Row) (key : Row → String) (p : String × Int)
    (hp : p ∈ groupSumBy d key) :
    p.2 = ((d.filter (fun r => key r == p.1)).map Row.engagements).sum
    ∧ p.1 ∈ d.map key := by
  unfold groupSumBy at hp
  obtain ⟨k, hk, he⟩ := List.mem_map.1 hp
  rw [(List.perm_insertionSort strAsc _).mem_iff] at hk
  rw [← he]
  exact ⟨rfl, List.mem_dedup.1 hk⟩

/-! ## C8 -/

/-- C8.  Each aggregator conserves the whole-dataset total: the sentiment-mix
counts sum to the row count of the Dataset, and the per-platform engagement
sums sum to the total engagements of the Dataset. -/
theorem C8_conservation (d : List Row) :
    ((sentiment_counts d).map Prod.snd).sum = d.length
  ∧ ((platform_engagements d).map Prod.snd).sum = (d.map Row.engagements).sum := by
  constructor
  · unfold sentiment_counts
    rw [sum_snd_value_counts, List.length_map]
  · unfold platform_engagements
    rw [((List.perm_insertionSort descInt _).map Prod.snd).sum_eq,
      sum_snd_groupSumBy]

/-! ## C7 -/

/-- C7.  The percentage fields of the sentiment-mix and media-type-mix
Summary Tables sum to exactly 100 when the Dataset (hence the table) is
non-empty, and to 0 for the empty table. -/
theorem C7_percentage_sum (d : List Row) :
    (d ≠ [] →
      pctSum (sentiment_table d) = 100 ∧ pctSum (media_type_table d) = 100)
  ∧ pctSum (sentiment_table ([] : List Row)) = 0
  ∧ pctSum (media_type_table ([] : List Row)) = 0 := by
  refine ⟨?_, rfl, rfl⟩
  intro h
  have hlen : d.length ≠ 0 := fun e => h (List.length_eq_zero.1 e)
  constructor
  · refine pctSum_add_percentage _ ?_
    unfold sentiment_counts
    rw [sum_snd_value_counts, List.length_map]
    exact hlen
  · refine pctSum_add_percentage _ ?_
    unfold media_type_counts
    rw [sum_snd_value_counts, List.length_map]
    exact hlen

/-- C7, witness: on the concrete scenario Dataset both percentage columns
sum to 100. -/
theorem C7_witness :
    exRows ≠ []
  ∧ (pctSum (sentiment_table exRows) = 100 ∧ pctSum (media_type_table exRows) = 100) :=
  ⟨by decide, (C7_percentage_sum exRows).1 (by decide)⟩

/-! ## C2 -/

/-- C2, amended.  The `streamlit_app.py` top-locations aggregation groups
rows by location, takes the sum of engagements per location, returns at most
5 rows sorted descending by that sum; the `app.py` variant instead counts the
rows per location (not their engagement sum), also returning at most 5 rows
sorted descending by its count metric. -/
theorem C2_top_locations (d : List Row) :
    (location_engagements d).length ≤ 5
  ∧ List.Sorted descInt (location_engagements d)
  ∧ (∀ p ∈ location_engagements d,
      p.2 = ((d.filter (fun r => Row.location r == p.1)).map Row.engagements).sum
      ∧ p.1 ∈ d.map Row.location)
  ∧ (top_locations d).length ≤ 5
  ∧ List.Sorted descNat (top_locations d)
  ∧ (∀ p ∈ top_locations d,
      p.2 = (d.map Row.location).count p.1 ∧ p.1 ∈ d.map Row.location) := by
  refine ⟨List.length_take_le 5 _, ?_, ?_, List.length_take_le 5 _, ?_, ?_⟩
  · exact List.Pairwise.sublist (List.take_sublist 5 _)
      (List.sorted_insertionSort descInt _)
  · intro p hpmem
    have hp2 : p ∈ (groupSumBy d Row.location).insertionSort descInt :=
      List.mem_of_mem_take hpmem
    rw [(List.perm_insertionSort descInt _).mem_iff] at hp2
    exact mem_groupSumBy d Row.location p hp2
  · exact List.Pairwise.sublist (List.take_sublist 5 _)
      (List.sorted_insertionSort descNat _)
  · intro p hpmem
    exact mem_value_counts _ p (List.mem_of_mem_take hpmem)

/-- C2, witness: the amended statement applied to the concrete Dataset
`exC2`, at the top row of the engagement-sum aggregation. -/
theorem C2_witness :
    (("A", (10 : Int)) ∈ location_engagements exC2)
  ∧ ((("A", (10 : Int)).2
      = ((exC2.filter (fun r => Row.location r == ("A", (10 : Int)).1)).map
          Row.engagements).sum)
      ∧ ("A", (10 : Int)).1 ∈ exC2.map Row.location)
  ∧ (location_engagements exC2).length ≤ 5 :=
  ⟨by decide, (C2_top_locations exC2).2.2.1 ("A", (10 : Int)) (by decide),
    (C2_top_locations exC2).1⟩

/-- C2, counterexample to the claim as stated: the `app.py` top-locations
aggregation (a cited source of the claim) does not take the sum of
engagements per location — on `exC2` it ranks location B first with metric 2
(its row count), while B has engagement sum 6 and the engagement-sum
aggregation ranks A (sum 10) first. -/
theorem C2_counterexample :
    top_locations exC2 = [("B", 2), ("A", 1)]
  ∧ ((exC2.filter (fun r => Row.location r == "B")).map Row.engagements).sum = 6
  ∧ location_engagements exC2 = [("A", 10), ("B", 6)]
  ∧ (2 : Int) ≠ 6 :=
  ⟨by decide, by decide, by decide, by decide⟩

end MediaDash
